import Mathlib

/-!
Shallow embedding of `main.go` from the go-crud-tut repository.

The program manages a single MySQL table `album` through three operations:
`albumsByArtist`, `albumByID` and `addAlbum`, all driven sequentially from
`main`.  The SQL driver is an external boundary, so each operation is
embedded as a pure function of the driver's response (an "outcome" value);
the ideal behaviour of the MySQL database itself is embedded separately as
functions on an explicit database state, and the two are composed where a
claim speaks about database contents.
-/

namespace GoCrud

/-- Album mirrors the Go struct `Album {ID int64; Title, Artist string; Price float32}`.
`ID` is an `Int` (the program performs no arithmetic that could overflow
int64), and `Price` is a `Rat` (the program performs no arithmetic on the
price at all: it is only stored and compared, so an exact numeric type is a
faithful model of the stored value). -/
structure Album where
  ID : Int
  Title : String
  Artist : String
  Price : Rat
deriving Repr, DecidableEq

/-- Zero value of the Go struct `Album`: `var alb Album` in the source. -/
def zeroAlbum : Album := ⟨0, "", "", 0⟩

/-- Model of Go `fmt`'s `%q` verb on the caller-supplied name (escaping of
special characters inside the string is elided; the quotes are what the
error messages of the source rely on). -/
def goQuote (s : String) : String := "\"" ++ s ++ "\""

/-- The wrapped error built by every `fmt.Errorf("albumsByArtist %q: %v", name, err)`
in the source. -/
def wrapArtist (name msg : String) : String :=
  "albumsByArtist " ++ goQuote name ++ ": " ++ msg

/-- The wrapped error built by `fmt.Errorf("albumsById %d: %v", id, err)`. -/
def wrapById (id : Int) (msg : String) : String :=
  "albumsById " ++ toString id ++ ": " ++ msg

/-- The not-found error built by `fmt.Errorf("albumsById %d: no such album", id)`. -/
def noSuchAlbumMsg (id : Int) : String :=
  "albumsById " ++ toString id ++ ": no such album"

/-- The wrapped error built by `fmt.Errorf("addAlbum: %v", err)`. -/
def wrapAdd (msg : String) : String := "addAlbum: " ++ msg

/-- Outcome of one `rows.Next()` / `rows.Scan(...)` step inside the loop of
`albumsByArtist`: either the row decodes into an `Album`, or `Scan` returns
an error (the loop then aborts, so nothing beyond the message matters). -/
inductive ScanOutcome where
  | ok (alb : Album)
  | err (msg : String)
deriving Repr, DecidableEq

/-- The cursor returned by `db.Query` in `albumsByArtist`: the sequence of
per-row scan outcomes the loop will see, and the value of `rows.Err()`
checked after the loop (`some e` when iteration stopped because of a cursor
error). -/
structure Cursor where
  rowScans : List ScanOutcome
  errAfter : Option String
deriving Repr, DecidableEq

/-- Outcome of the `db.Query("SELECT * FROM album WHERE artist = ?", name)`
call itself: an immediate error, or a cursor. -/
inductive QueryOutcome where
  | connErr (msg : String)
  | rows (c : Cursor)
deriving Repr, DecidableEq

/-- The loop `for rows.Next() { ... rows.Scan ... append }` of
`albumsByArtist`: accumulates decoded albums in order; a scan error aborts
immediately with the wrapped error (the Go function returns `nil, err`). -/
def scanLoop (name : String) : List ScanOutcome → List Album → Except String (List Album)
  | [], acc => Except.ok acc
  | ScanOutcome.ok alb :: rest, acc => scanLoop name rest (acc ++ [alb])
  | ScanOutcome.err e :: _, _ => Except.error (wrapArtist name e)

/-- Embedding of `albumsByArtist` (src/main.go): wraps a `db.Query` error,
otherwise runs the scan loop, then checks `rows.Err()`; on success returns
the accumulated slice.  `Except.error` carries only the message, matching
the Go `return nil, err` on every error path. -/
def albumsByArtist (name : String) (q : QueryOutcome) : Except String (List Album) :=
  match q with
  | QueryOutcome.connErr e => Except.error (wrapArtist name e)
  | QueryOutcome.rows c =>
    match scanLoop name c.rowScans [] with
    | Except.error e => Except.error e
    | Except.ok albums =>
      match c.errAfter with
      | some e => Except.error (wrapArtist name e)
      | none => Except.ok albums

/-- Outcome of `db.QueryRow(...).Scan(&alb.ID, &alb.Title, &alb.Artist, &alb.Price)`
in `albumByID`.  `noRows` is `sql.ErrNoRows` (Scan assigns nothing, so `alb`
keeps its zero value).  `scanErr` is any other query or decode failure;
`database/sql`'s `Rows.Scan` assigns the destination pointers column by
column, so a conversion failure on a later column leaves the earlier fields
of `alb` already assigned — `assigned` is the value `alb` holds when `Scan`
returns.  `found` is a successful decode. -/
inductive RowOutcome where
  | noRows
  | scanErr (assigned : Album) (msg : String)
  | found (alb : Album)
deriving Repr, DecidableEq

/-- Embedding of `albumByID` (src/main.go): returns the Go pair
`(Album, error)`, with `error` as `Option String`. -/
def albumByID (id : Int) (r : RowOutcome) : Album × Option String :=
  match r with
  | RowOutcome.noRows => (zeroAlbum, some (noSuchAlbumMsg id))
  | RowOutcome.scanErr assigned e => (assigned, some (wrapById id e))
  | RowOutcome.found a => (a, none)

/-- Outcome of `db.Exec("INSERT INTO album (title, artist, price) VALUES (?, ?, ?)", ...)`
in `addAlbum`: either the execute fails, or it yields a result whose
`LastInsertId()` either fails or yields the generated id. -/
inductive ExecOutcome where
  | err (msg : String)
  | ok (lastId : Except String Int)
deriving Repr

/-- Embedding of `addAlbum` (src/main.go): returns the Go pair
`(int64, error)`; both failure paths return `0` for the id. -/
def addAlbum (alb : Album) (e : ExecOutcome) : Int × Option String :=
  match e with
  | ExecOutcome.err m => (0, some (wrapAdd m))
  | ExecOutcome.ok (Except.error m) => (0, some (wrapAdd m))
  | ExecOutcome.ok (Except.ok id) => (id, none)

/-- The three parameters the source binds into the INSERT statement:
`db.Exec(..., alb.Title, alb.Artist, alb.Price)` — the key field is not
among them. -/
def insertArgs (alb : Album) : String × String × Rat :=
  (alb.Title, alb.Artist, alb.Price)

/-- Ideal state of the MySQL `album` table: the stored rows in insertion
order and the auto-increment counter that yields the next generated key. -/
structure DB where
  rows : List Album
  nextId : Int
deriving Repr, DecidableEq

/-- Well-formedness of the table state: every stored key is below the
auto-increment counter (MySQL's auto-increment invariant). -/
def DB.wf (db : DB) : Prop := ∀ a ∈ db.rows, a.ID < db.nextId

instance (db : DB) : Decidable db.wf := by
  unfold DB.wf; infer_instance

/-- Ideal result of `SELECT * FROM album WHERE artist = ?`: a cursor over
exactly the rows whose artist column equals the bound value, in table
order, with no cursor error. -/
def queryArtist (db : DB) (name : String) : QueryOutcome :=
  QueryOutcome.rows ⟨(db.rows.filter (fun a => a.Artist == name)).map ScanOutcome.ok, none⟩

/-- Ideal result of `db.QueryRow("SELECT * FROM album WHERE id = ?", id)`
followed by `Scan`: the first (with a unique key, the only) row whose key
equals `id`, or `sql.ErrNoRows` when none matches. -/
def queryRowById (db : DB) (id : Int) : RowOutcome :=
  match db.rows.find? (fun a => a.ID == id) with
  | some a => RowOutcome.found a
  | none => RowOutcome.noRows

/-- Ideal effect of the INSERT issued by `addAlbum` on the table state: a
new row with the generated key `db.nextId` and the three bound parameters
is appended, the counter advances, and the generated key is reported. -/
def execInsert (db : DB) (title artist : String) (price : Rat) : DB × Int :=
  (⟨db.rows ++ [⟨db.nextId, title, artist, price⟩], db.nextId + 1⟩, db.nextId)

/-- `addAlbum` composed with the ideal database: the INSERT is executed with
the three non-key fields of the input record, and `addAlbum` consumes the
successful exec outcome.  Returns the new table state and the Go pair
`(id, error)`. -/
def addAlbumDB (db : DB) (alb : Album) : DB × Int × Option String :=
  let r := execInsert db alb.Title alb.Artist alb.Price
  (r.1, addAlbum alb (ExecOutcome.ok (Except.ok r.2)))

/-- Observable steps of `main` (src/main.go): open the connection, ping,
the three query operations, and termination (via `log.Fatal` or normal
exit). -/
inductive Event where
  | openConn
  | ping
  | queryArtistOp
  | queryByIdOp
  | insertOp
  | fatalExit (msg : String)
  | normalExit
deriving Repr, DecidableEq

/-- Trace of `main` as a function of the outcomes of each external call:
`sql.Open` error, `db.Ping` error, and the results of the three sequential
operation calls.  `log.Fatal` truncates the trace at the failing step. -/
def mainTrace (openErr pingErr : Option String)
    (artistRes : Except String (List Album))
    (idRes : Album × Option String)
    (addRes : Int × Option String) : List Event :=
  Event.openConn ::
    match openErr with
    | some e => [Event.fatalExit e]
    | none =>
      Event.ping ::
        match pingErr with
        | some e => [Event.fatalExit e]
        | none =>
          Event.queryArtistOp ::
            match artistRes with
            | Except.error e => [Event.fatalExit e]
            | Except.ok _ =>
              Event.queryByIdOp ::
                match idRes.2 with
                | some e => [Event.fatalExit e]
                | none =>
                  Event.insertOp ::
                    match addRes.2 with
                    | some e => [Event.fatalExit e]
                    | none => [Event.normalExit]

/-! Helper lemmas about the scan loop. -/

/-- A run of successful scans extends the accumulator with the decoded
albums, in order. -/
theorem scanLoop_map_ok (name : String) (l acc : List Album) :
    scanLoop name (l.map ScanOutcome.ok) acc = Except.ok (acc ++ l) := by
  induction l generalizing acc with
  | nil => simp [scanLoop]
  | cons a rest ih =>
    simp only [List.map_cons, scanLoop, ih]
    simp

/-- The first scan error aborts the loop with the wrapped error, whatever
was accumulated before and whatever rows would have followed. -/
theorem scanLoop_first_err (name e : String) (pre : List Album)
    (post : List ScanOutcome) (acc : List Album) :
    scanLoop name (pre.map ScanOutcome.ok ++ ScanOutcome.err e :: post) acc =
      Except.error (wrapArtist name e) := by
  induction pre generalizing acc with
  | nil => simp [scanLoop]
  | cons a rest ih =>
    simp only [List.map_cons, List.cons_append, scanLoop]
    simpa using ih (acc ++ [a])

/-- C1: on any database state, `albumsByArtist` applied to the ideal result
set for value `v` succeeds with exactly the rows whose artist column equals
`v`, in table order; a record is in the result iff it is a stored row whose
artist equals `v`. -/
theorem albumsByArtist_exactly_matching (db : DB) (v : String) :
    albumsByArtist v (queryArtist db v) =
        Except.ok (db.rows.filter (fun a => a.Artist == v)) ∧
      ∀ a : Album, a ∈ db.rows.filter (fun a => a.Artist == v) ↔
        a ∈ db.rows ∧ a.Artist = v := by
  constructor
  · simp [albumsByArtist, queryArtist, scanLoop_map_ok]
  · intro a
    simp [List.mem_filter]

/-- C5: when no stored row's artist column equals the input value,
`albumsByArtist` returns the empty sequence and no error. -/
theorem albumsByArtist_no_match_empty (db : DB) (v : String)
    (h : ∀ a ∈ db.rows, a.Artist ≠ v) :
    albumsByArtist v (queryArtist db v) = Except.ok [] := by
  have hfilter : db.rows.filter (fun a => a.Artist == v) = [] := by
    rw [List.filter_eq_nil_iff]
    intro a ha
    simpa using h a ha
  simp [albumsByArtist, queryArtist, hfilter, scanLoop]

/-- Witness for C5 on a concrete database state with no matching row. -/
theorem albumsByArtist_no_match_empty_witness :
    (∀ a ∈ (DB.mk [⟨1, "Blue Train", "John Coltrane", 56⟩] 2).rows,
        a.Artist ≠ "Betty Carter") ∧
      albumsByArtist "Betty Carter"
        (queryArtist (DB.mk [⟨1, "Blue Train", "John Coltrane", 56⟩] 2) "Betty Carter") =
        Except.ok [] :=
  ⟨by decide,
   albumsByArtist_no_match_empty (DB.mk [⟨1, "Blue Train", "John Coltrane", 56⟩] 2)
     "Betty Carter" (by decide)⟩

/-- C6: every cursor-level failure mode of `albumsByArtist` — a failed
query open, a scan error on any row (whatever succeeded before and whatever
would follow), or a post-iteration cursor error — yields the wrapped error
naming the operation and the quoted input value, with no records returned
alongside it (the `Except.error` constructor carries only the message,
matching the Go `return nil, err`). -/
theorem albumsByArtist_failure_wrapped (name : String) :
    (∀ e, albumsByArtist name (QueryOutcome.connErr e) =
        Except.error (wrapArtist name e)) ∧
      (∀ (pre : List Album) (e : String) (post : List ScanOutcome)
          (after : Option String),
        albumsByArtist name
            (QueryOutcome.rows ⟨pre.map ScanOutcome.ok ++ ScanOutcome.err e :: post, after⟩) =
          Except.error (wrapArtist name e)) ∧
      ∀ (l : List Album) (e : String),
        albumsByArtist name (QueryOutcome.rows ⟨l.map ScanOutcome.ok, some e⟩) =
          Except.error (wrapArtist name e) := by
  refine ⟨fun e => rfl, fun pre e post after => ?_, fun l e => ?_⟩
  · simp [albumsByArtist, scanLoop_first_err]
  · simp [albumsByArtist, scanLoop_map_ok]

/-- C2: `albumByID` with zero matching rows (the `sql.ErrNoRows` branch,
which the ideal database produces exactly when no stored row has key `k`)
returns the distinguished not-found message naming `k` together with an
error value — never a zero-value record treated as success — and every
other query or decode failure returns the generic wrapped message, also
naming `k`. -/
theorem albumByID_zero_rows_not_found (k : Int) :
    (∀ db : DB, (∀ a ∈ db.rows, a.ID ≠ k) →
        albumByID k (queryRowById db k) = (zeroAlbum, some (noSuchAlbumMsg k))) ∧
      ∀ (assigned : Album) (e : String),
        albumByID k (RowOutcome.scanErr assigned e) = (assigned, some (wrapById k e)) := by
  refine ⟨fun db h => ?_, fun assigned e => rfl⟩
  have hfind : db.rows.find? (fun a => a.ID == k) = none := by
    rw [List.find?_eq_none]
    intro a ha
    simpa using h a ha
  simp [queryRowById, hfind, albumByID]

/-- Witness for C2 on a concrete database state with no row for key 7. -/
theorem albumByID_zero_rows_not_found_witness :
    albumByID 7 (queryRowById (DB.mk [⟨1, "Blue Train", "John Coltrane", 56⟩] 2) 7) =
      (zeroAlbum, some (noSuchAlbumMsg 7)) :=
  (albumByID_zero_rows_not_found 7).1
    (DB.mk [⟨1, "Blue Train", "John Coltrane", 56⟩] 2) (by decide)

/-- C9 counterexample: a decode failure other than `sql.ErrNoRows` (here, a
conversion failure on the price column after the first three columns were
already assigned by `Scan`) makes `albumByID` return an error together with
a record that is not the zero value. -/
theorem albumByID_error_record_nonzero_cex :
    (albumByID 5
        (RowOutcome.scanErr ⟨5, "Giant Steps", "John Coltrane", 0⟩ "decode failure")).2.isSome
        = true ∧
      (albumByID 5
          (RowOutcome.scanErr ⟨5, "Giant Steps", "John Coltrane", 0⟩ "decode failure")).1
        ≠ zeroAlbum := by
  constructor
  · rfl
  · decide

/-- C9 amended: on the not-found error the record returned alongside the
error is the zero-value Record; on any other decode failure it is whatever
value the failed `Scan` left in the destination struct, which may be
partially decoded and nonzero. -/
theorem albumByID_error_record_value (k : Int) :
    (albumByID k RowOutcome.noRows).1 = zeroAlbum ∧
      ∀ (assigned : Album) (e : String),
        (albumByID k (RowOutcome.scanErr assigned e)).1 = assigned :=
  ⟨rfl, fun _ _ => rfl⟩

/-- C4: on any database state holding a row with key `k`, `albumByID`
applied to `k` succeeds (no error) and the returned record's key field
equals `k`. -/
theorem albumByID_existing_key (db : DB) (k : Int)
    (h : ∃ a ∈ db.rows, a.ID = k) :
    (albumByID k (queryRowById db k)).2 = none ∧
      (albumByID k (queryRowById db k)).1.ID = k := by
  obtain ⟨a, ha, hak⟩ := h
  have hsome : (db.rows.find? (fun a => a.ID == k)).isSome := by
    rw [List.find?_isSome]
    exact ⟨a, ha, by simp [hak]⟩
  obtain ⟨b, hb⟩ := Option.isSome_iff_exists.mp hsome
  have hbk : b.ID = k := by simpa using List.find?_some hb
  simp [queryRowById, hb, albumByID, hbk]

/-- Witness for C4 on a concrete database state holding key 2. -/
theorem albumByID_existing_key_witness :
    (albumByID 2
          (queryRowById (DB.mk [⟨1, "Blue Train", "John Coltrane", 56⟩,
            ⟨2, "Jeru", "Gerry Mulligan", 17⟩] 3) 2)).2 = none ∧
      (albumByID 2
          (queryRowById (DB.mk [⟨1, "Blue Train", "John Coltrane", 56⟩,
            ⟨2, "Jeru", "Gerry Mulligan", 17⟩] 3) 2)).1.ID = 2 :=
  albumByID_existing_key
    (DB.mk [⟨1, "Blue Train", "John Coltrane", 56⟩, ⟨2, "Jeru", "Gerry Mulligan", 17⟩] 3) 2
    ⟨⟨2, "Jeru", "Gerry Mulligan", 17⟩, by decide, rfl⟩

/-- C7: when the execute step or the id-retrieval step of `addAlbum` fails,
the function returns the wrapped error naming the operation and the id `0`
(the Go zero value), which carries no information from the failed insert. -/
theorem addAlbum_failure_zero_id (alb : Album) :
    (∀ e, addAlbum alb (ExecOutcome.err e) = (0, some (wrapAdd e))) ∧
      ∀ e, addAlbum alb (ExecOutcome.ok (Except.error e)) = (0, some (wrapAdd e)) :=
  ⟨fun _ => rfl, fun _ => rfl⟩

/-- C10: `addAlbum` never reads the input record's key field: two inputs
agreeing on title, artist and price bind the same three INSERT parameters,
have the same effect on the database state, and produce the same returned
pair — indeed the driver-level function gives the same result on every exec
outcome. -/
theorem addAlbum_key_independent (db : DB) (a b : Album)
    (ht : a.Title = b.Title) (hr : a.Artist = b.Artist) (hp : a.Price = b.Price) :
    insertArgs a = insertArgs b ∧
      addAlbumDB db a = addAlbumDB db b ∧
      ∀ er : ExecOutcome, addAlbum a er = addAlbum b er := by
  refine ⟨?_, ?_, fun er => rfl⟩
  · simp [insertArgs, ht, hr, hp]
  · simp [addAlbumDB, execInsert, addAlbum, ht, hr, hp]

/-- Witness for C10: two concrete records differing only in the key field. -/
theorem addAlbum_key_independent_witness :
    insertArgs (Album.mk 1 "Jeru" "Gerry Mulligan" 17) =
        insertArgs (Album.mk 99 "Jeru" "Gerry Mulligan" 17) ∧
      addAlbumDB (DB.mk [] 1) (Album.mk 1 "Jeru" "Gerry Mulligan" 17) =
        addAlbumDB (DB.mk [] 1) (Album.mk 99 "Jeru" "Gerry Mulligan" 17) ∧
      ∀ er : ExecOutcome,
        addAlbum (Album.mk 1 "Jeru" "Gerry Mulligan" 17) er =
          addAlbum (Album.mk 99 "Jeru" "Gerry Mulligan" 17) er :=
  addAlbum_key_independent (DB.mk [] 1) (Album.mk 1 "Jeru" "Gerry Mulligan" 17)
    (Album.mk 99 "Jeru" "Gerry Mulligan" 17) rfl rfl rfl

/-- C3: from any well-formed database state (all stored keys below the
auto-increment counter) and any list of previously generated keys (all
below the counter — the invariant every insert maintains), `addAlbum`
through the ideal database succeeds, its returned key is distinct from
every previously generated key and from every stored key, the invariants
are re-established for the new state and the extended key list, and
`albumByID` on the returned key yields exactly the inserted record with the
key field populated.  Database reads take the state as a value and return
no new state, so repeating the `albumByID` call any number of times yields
this same record by the same equation. -/
theorem insert_then_findByKey (db : DB) (r : Album) (prevKeys : List Int)
    (hwf : db.wf) (hprev : ∀ k ∈ prevKeys, k < db.nextId) :
    (addAlbumDB db r).2.2 = none ∧
      (addAlbumDB db r).2.1 ∉ prevKeys ∧
      (∀ a ∈ db.rows, a.ID ≠ (addAlbumDB db r).2.1) ∧
      DB.wf (addAlbumDB db r).1 ∧
      (∀ k ∈ prevKeys ++ [(addAlbumDB db r).2.1], k < (addAlbumDB db r).1.nextId) ∧
      albumByID (addAlbumDB db r).2.1
          (queryRowById (addAlbumDB db r).1 (addAlbumDB db r).2.1) =
        (⟨(addAlbumDB db r).2.1, r.Title, r.Artist, r.Price⟩, none) := by
  have hkey : (addAlbumDB db r).2.1 = db.nextId := rfl
  have hrows : (addAlbumDB db r).1.rows =
      db.rows ++ [⟨db.nextId, r.Title, r.Artist, r.Price⟩] := rfl
  have hnext : (addAlbumDB db r).1.nextId = db.nextId + 1 := rfl
  refine ⟨rfl, ?_, ?_, ?_, ?_, ?_⟩
  · rw [hkey]
    intro hmem
    exact absurd (hprev _ hmem) (lt_irrefl _)
  · intro a ha
    rw [hkey]
    exact Int.ne_of_lt (hwf a ha)
  · intro a ha
    rw [hrows] at ha
    rw [hnext]
    rcases List.mem_append.mp ha with ha | ha
    · exact lt_trans (hwf a ha) (by omega)
    · simp only [List.mem_singleton] at ha
      subst ha
      show db.nextId < db.nextId + 1
      omega
  · intro k hk
    rw [hnext]
    rcases List.mem_append.mp hk with hk | hk
    · exact lt_trans (hprev k hk) (by omega)
    · simp only [List.mem_singleton] at hk
      rw [hk, hkey]
      omega
  · have hnone : db.rows.find? (fun a => a.ID == db.nextId) = none := by
      rw [List.find?_eq_none]
      intro a ha
      simpa using Int.ne_of_lt (hwf a ha)
    rw [hkey]
    simp [queryRowById, hrows, List.find?_append, hnone, albumByID]

/-- Witness for C3: inserting the Betty Carter record of `main` into the
empty table with counter 1. -/
theorem insert_then_findByKey_witness :
    albumByID
        (addAlbumDB (DB.mk [] 1)
            (Album.mk 0 "The Modern Sound of Betty Carter" "Betty Carter" (49.99 : Rat))).2.1
        (queryRowById
          (addAlbumDB (DB.mk [] 1)
              (Album.mk 0 "The Modern Sound of Betty Carter" "Betty Carter" (49.99 : Rat))).1
          (addAlbumDB (DB.mk [] 1)
              (Album.mk 0 "The Modern Sound of Betty Carter" "Betty Carter" (49.99 : Rat))).2.1) =
      (⟨(addAlbumDB (DB.mk [] 1)
            (Album.mk 0 "The Modern Sound of Betty Carter" "Betty Carter" (49.99 : Rat))).2.1,
        "The Modern Sound of Betty Carter", "Betty Carter", (49.99 : Rat)⟩, none) :=
  (insert_then_findByKey (DB.mk [] 1)
      (Album.mk 0 "The Modern Sound of Betty Carter" "Betty Carter" (49.99 : Rat)) []
      (by intro a ha; simp at ha) (by intro k hk; simp at hk)).2.2.2.2.2

/-- C8: whenever `sql.Open` or `db.Ping` fails, the trace of `main` stops
at the corresponding `log.Fatal` and contains none of the three query
operations, whatever the operations would have returned. -/
theorem main_no_query_after_startup_failure (openErr pingErr : Option String)
    (artistRes : Except String (List Album)) (idRes : Album × Option String)
    (addRes : Int × Option String) (h : openErr.isSome ∨ pingErr.isSome) :
    Event.queryArtistOp ∉ mainTrace openErr pingErr artistRes idRes addRes ∧
      Event.queryByIdOp ∉ mainTrace openErr pingErr artistRes idRes addRes ∧
      Event.insertOp ∉ mainTrace openErr pingErr artistRes idRes addRes := by
  cases openErr with
  | some e => simp [mainTrace]
  | none =>
    cases pingErr with
    | some e => simp [mainTrace]
    | none => simp at h

/-- Witness for C8: a failed open halts the trace with no query events. -/
theorem main_no_query_after_startup_failure_witness :
    Event.queryArtistOp ∉
        mainTrace (some "dial tcp: connection refused") none (Except.ok [])
          (zeroAlbum, none) (0, none) ∧
      Event.queryByIdOp ∉
        mainTrace (some "dial tcp: connection refused") none (Except.ok [])
          (zeroAlbum, none) (0, none) ∧
      Event.insertOp ∉
        mainTrace (some "dial tcp: connection refused") none (Except.ok [])
          (zeroAlbum, none) (0, none) :=
  main_no_query_after_startup_failure (some "dial tcp: connection refused") none
    (Except.ok []) (zeroAlbum, none) (0, none) (Or.inl rfl)

end GoCrud
